import Mathlib

/-!
Verification development for the portfolio chatbot backend.

The repository contains two backend variants:
* `src/backend` — a simple variant (static portfolio document, keyword guardrail
  with an irrelevant-topic list, in-memory session dict capped at 20 messages,
  LLM errors converted to a fixed apology reply).
* `src/rag-backend` — the RAG variant (Pinecone retrieval, LangChain session
  memory, permissive keyword guardrail, suggestion generation with JSON repair).

Pure functions are translated directly; remote calls (embedding, vector query,
LLM completion) are modelled as oracle outcomes (`Except`) supplied through an
environment record, and the number of remote calls attempted is tracked
explicitly.  Python strings are modelled as Lean `String` (a list of unicode
code points, matching Python `len`/indexing semantics); `str.lower`,
`str.strip`, `str.split` and the `in` substring operator are translated below
for the ASCII inputs these services process.
-/

/-- Python `needle in hay` prefix step: does `needle` start `hay`? -/
def listLeads : List Char → List Char → Bool
  | [], _ => true
  | _ :: _, [] => false
  | a :: as, b :: bs => a == b && listLeads as bs

/-- Does `needle` occur starting at some position of `hay` (Python `in`)? -/
def subAt (needle : List Char) : List Char → Bool
  | [] => listLeads needle []
  | c :: cs => listLeads needle (c :: cs) || subAt needle cs

/-- Python `needle in hay` on strings. -/
def strContains (hay needle : String) : Bool :=
  subAt needle.data hay.data

/-- Python `len` on strings (number of code points). -/
def pyLen (s : String) : Nat := s.data.length

/-- ASCII case folding, as applied by `str.lower` on the ASCII text handled here. -/
def pyLower (s : String) : String := ⟨s.data.map Char.toLower⟩

/-- The whitespace characters recognised by `str.strip`, `str.split` and `\s`
(ASCII range). -/
def pyIsSpace (c : Char) : Bool :=
  c = ' ' || c = '\t' || c = '\n' || c = '\r' || c = '\x0b' || c = '\x0c'

/-- Python `str.strip()` (ASCII whitespace). -/
def pyStrip (s : String) : String :=
  ⟨((s.data.dropWhile pyIsSpace).reverse.dropWhile pyIsSpace).reverse⟩

/-- Auxiliary split loop: accumulates the current word (reversed). -/
def pySplitAux : List Char → List Char → List String
  | acc, [] => if acc.isEmpty then [] else [⟨acc.reverse⟩]
  | acc, c :: cs =>
    if pyIsSpace c then
      if acc.isEmpty then pySplitAux [] cs else ⟨acc.reverse⟩ :: pySplitAux [] cs
    else pySplitAux (c :: acc) cs

/-- Python `str.split()` with no argument: split on whitespace runs, no empty
words. -/
def pySplit (s : String) : List String := pySplitAux [] s.data

/-- `split()[0] if split() else ""` -/
def firstWord : List String → String
  | [] => ""
  | w :: _ => w

/-! ## Guardrails — rag-backend variant
`src/rag-backend/app/services/guardrails.py`.  The Python source stores the
keywords in a `set`; iteration order does not affect the result (any match
returns `True`), so a list is a faithful model. -/

def YAZHINI_KEYWORDS : List String :=
  [ "experience", "work", "job", "role", "position", "career",
    "project", "projects", "built", "developed", "created",
    "skill", "skills", "technology", "technologies", "tech",
    "angular", "react", "frontend", "backend", "fullstack",
    "python", "javascript", "typescript", "java", "c#",
    "aws", "cloud", "azure", "docker", "kubernetes",
    "database", "sql", "mongodb", "api", "rest",
    "testing", "test", "unit", "integration", "jest", "jasmine",
    "agile", "scrum", "ci/cd", "devops",
    "education", "degree", "university", "college", "gpa",
    "csusb", "california", "bachelor", "masters",
    "course", "courses", "study", "studied",
    "accenture", "tcs", "cognizant", "infosys",
    "resume", "cv", "background", "qualification",
    "achievement", "accomplishment", "responsibility",
    "portfolio", "you", "your", "yazhini", "elanchezhian",
    "tell me about", "what", "how", "when", "where", "why",
    "do you", "did you", "can you", "have you",
    "who are you", "about yourself", "introduce",
    "contact", "email", "phone", "location", "hire" ]

def question_starters : List String :=
  ["what", "how", "when", "where", "why", "who", "can", "do", "did", "have"]

/-- `is_about_yazhini` from `src/rag-backend/app/services/guardrails.py`. -/
def is_about_yazhini_rag (message : String) : Bool :=
  if message = "" ∨ pyLen (pyStrip message) < 3 then false
  else
    let message_lower := pyLower message
    if YAZHINI_KEYWORDS.any (fun k => strContains message_lower k) then true
    else if strContains message "?" &&
        (strContains message_lower "you" || strContains message_lower "your") then true
    else if question_starters.contains (firstWord (pySplit message_lower)) then true
    else false

/-- `get_off_topic_response` from the rag-backend guardrails module. -/
def get_off_topic_response : String :=
  "That\x27s outside my scope, but I\x27d love to tell you about my work. Ask me about my projects, skills, or experience."

/-! ## Guardrails — simple backend variant
`src/backend/app/services/guardrails.py`. -/

def RELEVANT_KEYWORDS : List String :=
  [ "yazhini", "elanchezhian",
    "project", "projects", "geoassist", "scholarbot",
    "skill", "skills", "experience", "work", "job", "accenture",
    "education", "degree", "master", "bachelor", "university", "csusb", "sastra",
    "angular", "javascript", "python", "aws", "lambda", "docker",
    "langchain", "langgraph", "arcgis", "streamlit",
    "power bi", "power apps", "power automate",
    ".net", "azure", "cosmos",
    "contact", "email", "phone", "location", "redlands", "california",
    "portfolio", "about you", "tell me", "who are you", "background",
    "resume", "cv", "achievements", "accomplishments" ]

def IRRELEVANT_TOPICS : List String :=
  [ "weather", "news", "politics", "sports", "recipe", "math", "homework",
    "write code", "debug", "fix", "calculate", "solve", "equation",
    "story", "joke", "game", "movie", "music", "celebrity" ]

def FALLBACK_MESSAGE : String :=
  "That\x27s outside my scope, but I\x27d love to tell you about my work. Ask me about my projects, skills, or experience."

/-- The greeting terms listed inline in the simple backend `is_about_yazhini`. -/
def GREETING_TERMS : List String :=
  ["hi", "hello", "hey", "thanks", "thank", "ok", "okay"]

/-- `is_about_yazhini` from `src/backend/app/services/guardrails.py`:
irrelevant topics are checked first, then relevant keywords, then the short
greeting exception. -/
def is_about_yazhini_backend (message : String) : Bool :=
  let message_lower := pyLower message
  if IRRELEVANT_TOPICS.any (fun t => strContains message_lower t) then false
  else if RELEVANT_KEYWORDS.any (fun k => strContains message_lower k) then true
  else if (pySplit message).length ≤ 3 ∧
      GREETING_TERMS.any (fun g => strContains message_lower g) = true then true
  else false

/-! ## Session memory

A chat message as stored and replayed (`{"role": ..., "content": ...}`). -/

structure Msg where
  role : String
  content : String
deriving DecidableEq

/-- Per-session message store: session id to the session list of messages,
absent sessions mapping to `[]` (matching both the `defaultdict` in the
rag-backend and the `if sid not in session_history` initialisation in the
simple backend). -/
abbrev SessionStore := String → List Msg

def emptyStore : SessionStore := fun _ => []

/-- `SessionMemory.__init__` in `src/rag-backend/app/services/memory.py` is
called with `max_messages_per_session = 10` and computes the LangChain window
`k = max(1, max_messages_per_session // 2)`. -/
def sessionMemoryK : Nat := max 1 (10 / 2)

/-- `SessionMemory.add_message`: appends a `HumanMessage` for role `"user"`,
an `AIMessage` for role `"assistant"`, and nothing otherwise.  LangChain's
`ConversationBufferWindowMemory.chat_memory` is a plain unbounded message
list; `add_user_message`/`add_ai_message` append without truncation (the
window `k` is applied only by `load_memory_variables`, which this repository
never calls). -/
def add_message (store : SessionStore) (session_id role content : String) : SessionStore :=
  fun sid =>
    if sid = session_id then
      if role = "user" then store session_id ++ [⟨"user", content⟩]
      else if role = "assistant" then store session_id ++ [⟨"assistant", content⟩]
      else store session_id
    else store sid

/-- `SessionMemory.get_history_for_llm`: reads `chat_memory.messages` (the
full, unwindowed list) and keeps the human/AI messages as role/content dicts.
Under this model every stored message already has role `"user"` or
`"assistant"`, mirroring the `isinstance` dispatch. -/
def get_history_for_llm (store : SessionStore) (session_id : String) : List Msg :=
  (store session_id).filter (fun m => m.role == "user" || m.role == "assistant")

/-- The window LangChain *would* apply (`buffer_as_messages`, last `2*k`
messages); defined to document what the repository never invokes. -/
def windowedHistory (store : SessionStore) (session_id : String) : List Msg :=
  let msgs := store session_id
  msgs.drop (msgs.length - 2 * sessionMemoryK)

/-- One user/assistant exchange recorded through `add_message`. -/
def ragAddExchange (store : SessionStore) (sid q a : String) : SessionStore :=
  add_message (add_message store sid "user" q) sid "assistant" a

/-- `n` consecutive exchanges on session `"s"`. -/
def ragAddExchanges : Nat → SessionStore → SessionStore
  | 0, store => store
  | n + 1, store =>
    ragAddExchanges n
      (ragAddExchange store "s" "Tell me about your experience." "I worked at Accenture.")

/-! ### Simple backend session history (`src/backend/app/main.py`) -/

def MAX_HISTORY_PER_SESSION : Nat := 20

/-- `history[-MAX_HISTORY_PER_SESSION:]` applied only when the length exceeds
the cap — the truncation step of the simple backend chat endpoint. -/
def backend_truncate (h : List Msg) : List Msg :=
  if MAX_HISTORY_PER_SESSION < h.length then h.drop (h.length - MAX_HISTORY_PER_SESSION)
  else h

/-- Appending one exchange to a simple-backend session history, including the
post-append truncation. -/
def backendAppendPair (h : List Msg) (q a : String) : List Msg :=
  backend_truncate (h ++ [⟨"user", q⟩, ⟨"assistant", a⟩])

/-- `n` consecutive exchanges through the simple backend history update. -/
def backendHistoryIter : Nat → List Msg → List Msg
  | 0, h => h
  | n + 1, h =>
    backendHistoryIter n (backendAppendPair h "Tell me about your experience." "Accenture work.")

def updateStore (store : SessionStore) (sid : String) (h : List Msg) : SessionStore :=
  fun s => if s = sid then h else store s

/-! ## Context assembly (`RAGPipeline._build_context_string`)

A retrieved chunk; `_retrieve_context` also attaches `score`, `source` and
`chunk_index`, but `_build_context_string` and the suggestion flow read only
`text`, so only that field is modelled. -/

structure Chunk where
  text : String
deriving DecidableEq

/-- Python `"\n".join(parts)`. -/
def joinSep (sep : String) : List String → String
  | [] => ""
  | [x] => x
  | x :: y :: r => x ++ sep ++ joinSep sep (y :: r)

/-- One entry of `context_parts`: `f"[Context {i}]\n{chunk['text']}\n"`. -/
def contextPart (i : Nat) (text : String) : String :=
  "[Context " ++ Nat.repr i ++ "]\n" ++ text ++ "\n"

/-- Python `enumerate(chunks, 1)`. -/
def enumFromN (i : Nat) : List Chunk → List (Nat × Chunk)
  | [] => []
  | c :: cs => (i, c) :: enumFromN (i + 1) cs

/-- `RAGPipeline._build_context_string` from `src/rag-backend/app/services/rag.py`. -/
def build_context_string (chunks : List Chunk) : String :=
  if chunks.isEmpty then "No relevant resume context found."
  else joinSep "\n" ((enumFromN 1 chunks).map (fun p => contextPart p.1 p.2.text))

/-- Follows the spec text for the non-empty case: one numbered Context label
per chunk, in input order, each immediately followed by that chunk's text,
blocks separated by a blank line.  Compared against `build_context_string`. -/
def contextSpec : Nat → List Chunk → String
  | _, [] => ""
  | i, [c] => contextPart i c.text
  | i, c :: c2 :: r => contextPart i c.text ++ "\n" ++ contextSpec (i + 1) (c2 :: r)

/-! ## RAG chat flow (`src/rag-backend/app/main.py` `chat`)

The remote calls the pipeline makes are modelled as oracle outcomes; the
result additionally reports how many embedding / vector-query / LLM calls
were attempted, so the zero-cost property of the rejection branch is
expressible. -/

structure CallCounts where
  embed : Nat
  query : Nat
  generate : Nat
deriving DecidableEq

inductive ChatOutcome where
  /-- A normal `ChatResponse(reply=...)`. -/
  | reply (text : String)
  /-- An `HTTPException(status_code, detail={"error": ..., "detail": ...})`. -/
  | httpError (status : Nat) (error detail : String)
deriving DecidableEq

/-- Oracle outcomes of the remote dependencies during one rag-backend chat
request.  `pipelineErr` is the error from `get_rag_pipeline` (`None` when the
pipeline is available); the remaining fields are the outcomes of
`pc.inference.embed`, `index.query` and `llm.invoke`, with `Except.error e`
meaning the call raised an exception rendered as `e`. -/
structure RagChatEnv where
  pipelineErr : Option String
  embedResult : Except String Unit
  queryResult : Except String (List Chunk)
  llmResult : Except String String

/-- The `/chat` handler of the rag-backend: guardrail, then
`generate_rag_response` (embed, query, build context, invoke LLM), memory
updates, and the `except ValueError` / `except Exception` conversions to
HTTP 500 responses.  Exceptions from the pipeline propagate before the
success-path memory writes, so the store is unchanged on failure. -/
def rag_chat (env : RagChatEnv) (mem : SessionStore) (sessionId message : String) :
    ChatOutcome × SessionStore × CallCounts :=
  if is_about_yazhini_rag message = false then
    let off_topic_reply := get_off_topic_response
    let mem1 := add_message mem sessionId "user" message
    let mem2 := add_message mem1 sessionId "assistant" off_topic_reply
    (ChatOutcome.reply off_topic_reply, mem2, ⟨0, 0, 0⟩)
  else
    let _conversation_history := get_history_for_llm mem sessionId
    match env.pipelineErr with
    | some e => (ChatOutcome.httpError 500 "Configuration Error" e, mem, ⟨0, 0, 0⟩)
    | none =>
      match env.embedResult with
      | Except.error e =>
        (ChatOutcome.httpError 500 "Chat Error" ("Failed to generate response: " ++ e),
          mem, ⟨1, 0, 0⟩)
      | Except.ok _ =>
        match env.queryResult with
        | Except.error e =>
          (ChatOutcome.httpError 500 "Chat Error" ("Failed to generate response: " ++ e),
            mem, ⟨1, 1, 0⟩)
        | Except.ok chunks =>
          let _context_string := build_context_string chunks
          match env.llmResult with
          | Except.error e =>
            (ChatOutcome.httpError 500 "Chat Error" ("Failed to generate response: " ++ e),
              mem, ⟨1, 1, 1⟩)
          | Except.ok reply =>
            let mem1 := add_message mem sessionId "user" message
            let mem2 := add_message mem1 sessionId "assistant" reply
            (ChatOutcome.reply reply, mem2, ⟨1, 1, 1⟩)

/-! ## Simple backend chat flow (`src/backend/app/main.py`, `services/llm.py`) -/

/-- The fixed apology returned by `generate_reply` when the LangChain call
raises. -/
def apology_reply : String :=
  "I apologize, but I\x27m having trouble generating a response right now. Please try again in a moment."

/-- `history[-20:]` — the slice taken when replaying history into the prompt
(`llm.py`, "Last 10 exchanges = 20 messages"). -/
def history_window (history : List Msg) : List Msg :=
  if 20 < history.length then history.drop (history.length - 20) else history

/-- The LangChain message list built by `generate_reply`: system prompt, the
last 20 history messages with role `"user"`/`"assistant"`, then the current
message. -/
def build_messages (systemPrompt message : String) (history : List Msg) : List Msg :=
  (⟨"system", systemPrompt⟩ ::
      (history_window history).filter (fun m => m.role == "user" || m.role == "assistant"))
    ++ [⟨"user", message⟩]

/-- `generate_reply` from `src/backend/app/services/llm.py`: builds the
message list and invokes the model once; any exception from the call is
caught and converted into the fixed apology string.  The system prompt is
built from `PORTFOLIO_DATA` (a data module outside the modelled core) and is
passed in opaquely. -/
def generate_reply (llmResult : Except String String) (message : String)
    (history : List Msg) (systemPrompt : String) : String :=
  let _langchain_messages := build_messages systemPrompt message history
  match llmResult with
  | Except.ok content => content
  | Except.error _ => apology_reply

/-- Environment of one simple-backend chat request: whether
`OPENAI_API_KEY` is set, the LLM call outcome, and the system prompt derived
from the portfolio data module. -/
structure BackendEnv where
  openaiKeySet : Bool
  llmResult : Except String String
  systemPrompt : String

/-- The `/chat` handler of the simple backend: key check, guardrail,
`generate_reply`, then the in-place history append and cap-20 truncation. -/
def backend_chat (env : BackendEnv) (store : SessionStore) (sessionId message : String) :
    String × SessionStore :=
  if env.openaiKeySet = false then ("OPENAI_API_KEY is not set on the backend.", store)
  else if is_about_yazhini_backend message = false then (FALLBACK_MESSAGE, store)
  else
    let history := store sessionId
    let reply := generate_reply env.llmResult message history env.systemPrompt
    let h := history ++ [⟨"user", message⟩, ⟨"assistant", reply⟩]
    (reply, updateStore store sessionId (backend_truncate h))

/-! ## Configuration validation -/

/-- The environment values read by `src/rag-backend/app/config.py` (each via
`os.getenv(name, "")`, so an absent variable is the empty string). -/
structure ConfigEnv where
  PINECONE_API_KEY : String
  PINECONE_INDEX_NAME : String
  OPENAI_API_KEY : String
deriving DecidableEq

/-- The `required_vars` dict of `Config.validate_required` (insertion order). -/
def requiredVarsList (c : ConfigEnv) : List (String × String) :=
  [("PINECONE_API_KEY", c.PINECONE_API_KEY),
   ("PINECONE_INDEX_NAME", c.PINECONE_INDEX_NAME),
   ("OPENAI_API_KEY", c.OPENAI_API_KEY)]

/-- `missing = [key for key, value in required_vars.items() if not value]`. -/
def missingVars (c : ConfigEnv) : List String :=
  ((requiredVarsList c).filter (fun p => p.2 = "")).map Prod.fst

/-- `Config.validate_required` from `src/rag-backend/app/config.py`. -/
def validate_required (c : ConfigEnv) : Bool × Option String :=
  if missingVars c = [] then (true, none)
  else (false,
    some ("Missing required environment variables: " ++ joinSep ", " (missingVars c)))

/-- The environment values read by `RAGConfig.__init__` in
`src/rag-backend/app/services/rag.py` (plain `os.getenv(name)`, so an absent
variable is `None`). -/
structure RAGConfigEnv where
  pinecone_api_key : Option String
  pinecone_index_name : Option String
  openai_api_key : Option String
deriving DecidableEq

/-- Python `not value` on an optional string: true for `None` and `""`. -/
def pyFalsyOpt : Option String → Bool
  | none => true
  | some s => s == ""

/-- `RAGConfig.validate`: returns on the first missing credential. -/
def ragConfigValidate (c : RAGConfigEnv) : Bool × Option String :=
  if pyFalsyOpt c.pinecone_api_key then (false, some "PINECONE_API_KEY is required")
  else if pyFalsyOpt c.pinecone_index_name then (false, some "PINECONE_INDEX_NAME is required")
  else if pyFalsyOpt c.openai_api_key then (false, some "OPENAI_API_KEY is required")
  else (true, none)

/-! ## JSON parsing (model of `json.loads` for the suggestion flow)

Only the shape of the parsed value matters downstream (`isinstance(x, list)`
and `isinstance(s, str)`), so numbers carry no payload. -/

inductive Json where
  | jnull
  | jbool (b : Bool)
  | num
  | str (s : String)
  | arr (items : List Json)
  | obj (fields : List (String × Json))

/-- The JSON whitespace characters skipped between tokens (`json.decoder`
strips exactly space, tab, newline, carriage return). -/
def skipWs : List Char → List Char
  | c :: cs => if c = ' ' || c = '\t' || c = '\n' || c = '\r' then skipWs cs else c :: cs
  | [] => []

def hexVal (c : Char) : Option Nat :=
  if '0' ≤ c && c ≤ '9' then some (c.toNat - 48)
  else if 'a' ≤ c && c ≤ 'f' then some (c.toNat - 87)
  else if 'A' ≤ c && c ≤ 'F' then some (c.toNat - 55)
  else none

/-- JSON string body after the opening quote: returns the decoded content and
the input following the closing quote.  Strict mode: unescaped control
characters and unknown escapes are errors. -/
def pStringBody : Nat → List Char → List Char → Option (String × List Char)
  | 0, _, _ => none
  | _ + 1, _, [] => none
  | fuel + 1, acc, c :: rest =>
    if c = '"' then some (⟨acc.reverse⟩, rest)
    else if c = '\\' then
      match rest with
      | [] => none
      | e :: r =>
        if e = '"' then pStringBody fuel ('"' :: acc) r
        else if e = '\\' then pStringBody fuel ('\\' :: acc) r
        else if e = '/' then pStringBody fuel ('/' :: acc) r
        else if e = 'b' then pStringBody fuel ('\x08' :: acc) r
        else if e = 'f' then pStringBody fuel ('\x0c' :: acc) r
        else if e = 'n' then pStringBody fuel ('\n' :: acc) r
        else if e = 'r' then pStringBody fuel ('\r' :: acc) r
        else if e = 't' then pStringBody fuel ('\t' :: acc) r
        else if e = 'u' then
          match r with
          | h1 :: h2 :: h3 :: h4 :: r2 =>
            match hexVal h1, hexVal h2, hexVal h3, hexVal h4 with
            | some a, some b, some cc, some d =>
              pStringBody fuel (Char.ofNat (((a * 16 + b) * 16 + cc) * 16 + d) :: acc) r2
            | _, _, _, _ => none
          | _ => none
        else none
    else if c.toNat < 32 then none
    else pStringBody fuel (c :: acc) rest

/-- Splits a leading run of ASCII digits. -/
def takeDigits : List Char → List Char × List Char
  | [] => ([], [])
  | c :: cs =>
    if c.isDigit then
      let p := takeDigits cs
      (c :: p.1, p.2)
    else ([], c :: cs)

/-- Integer part of a JSON number: `0` or a nonzero digit followed by digits. -/
def pIntPart : List Char → Option (List Char)
  | [] => none
  | c :: cs =>
    if c = '0' then some cs
    else if c.isDigit then some (takeDigits cs).2
    else none

/-- Optional fraction part. -/
def pFracPart : List Char → Option (List Char)
  | '.' :: cs =>
    match takeDigits cs with
    | ([], _) => none
    | (_ :: _, r) => some r
  | cs => some cs

/-- Optional exponent part. -/
def pExpPart : List Char → Option (List Char)
  | [] => some []
  | c :: cs =>
    if c = 'e' || c = 'E' then
      let cs2 := match cs with
        | s :: r => if s = '+' || s = '-' then r else s :: r
        | [] => []
      match takeDigits cs2 with
      | ([], _) => none
      | (_ :: _, r) => some r
    else some (c :: cs)

/-- A JSON number after an optional leading minus has been consumed. -/
def pNumberTail (cs : List Char) : Option (List Char) :=
  (pIntPart cs).bind fun r1 => (pFracPart r1).bind pExpPart

mutual

/-- One JSON value, Python `json.loads` grammar (including the non-standard
`NaN`, `Infinity`, `-Infinity` accepted by default). -/
def pValue : Nat → List Char → Option (Json × List Char)
  | 0, _ => none
  | fuel + 1, input =>
    match skipWs input with
    | [] => none
    | c :: rest =>
      if c = '"' then
        match pStringBody (rest.length + 1) [] rest with
        | some (s, r) => some (Json.str s, r)
        | none => none
      else if c = '[' then
        match skipWs rest with
        | ']' :: r => some (Json.arr [], r)
        | other => match pArrayItems fuel other with
          | some (items, r) => some (Json.arr items, r)
          | none => none
      else if c = '{' then
        match skipWs rest with
        | '}' :: r => some (Json.obj [], r)
        | other => match pObjItems fuel other with
          | some (fields, r) => some (Json.obj fields, r)
          | none => none
      else if c = 't' then
        if listLeads ['r', 'u', 'e'] rest then some (Json.jbool true, rest.drop 3) else none
      else if c = 'f' then
        if listLeads ['a', 'l', 's', 'e'] rest then some (Json.jbool false, rest.drop 4) else none
      else if c = 'n' then
        if listLeads ['u', 'l', 'l'] rest then some (Json.jnull, rest.drop 3) else none
      else if c = 'N' then
        if listLeads ['a', 'N'] rest then some (Json.num, rest.drop 2) else none
      else if c = 'I' then
        if listLeads ['n', 'f', 'i', 'n', 'i', 't', 'y'] rest then some (Json.num, rest.drop 7)
        else none
      else if c = '-' then
        match rest with
        | 'I' :: r2 =>
          if listLeads ['n', 'f', 'i', 'n', 'i', 't', 'y'] r2 then some (Json.num, r2.drop 7)
          else none
        | _ => match pNumberTail rest with
          | some r => some (Json.num, r)
          | none => none
      else if c.isDigit then
        match pNumberTail (c :: rest) with
        | some r => some (Json.num, r)
        | none => none
      else none

/-- Comma-separated array items up to the closing bracket. -/
def pArrayItems : Nat → List Char → Option (List Json × List Char)
  | 0, _ => none
  | fuel + 1, input =>
    match pValue fuel input with
    | none => none
    | some (v, rest) =>
      match skipWs rest with
      | ',' :: r =>
        match pArrayItems fuel r with
        | some (vs, r2) => some (v :: vs, r2)
        | none => none
      | ']' :: r => some ([v], r)
      | _ => none

/-- Comma-separated object members up to the closing brace. -/
def pObjItems : Nat → List Char → Option (List (String × Json) × List Char)
  | 0, _ => none
  | fuel + 1, input =>
    match skipWs input with
    | '"' :: rest =>
      match pStringBody (rest.length + 1) [] rest with
      | none => none
      | some (key, r1) =>
        match skipWs r1 with
        | ':' :: r2 =>
          match pValue fuel r2 with
          | none => none
          | some (v, r3) =>
            match skipWs r3 with
            | ',' :: r4 =>
              match pObjItems fuel r4 with
              | some (fields, r5) => some ((key, v) :: fields, r5)
              | none => none
            | '}' :: r4 => some ([(key, v)], r4)
            | _ => none
        | _ => none
    | _ => none

end

/-- `json.loads`: one value, then nothing but whitespace ("Extra data"
otherwise).  `none` models a raised `JSONDecodeError`. -/
def jsonLoads (s : String) : Option Json :=
  match pValue (4 * s.data.length + 4) s.data with
  | some (v, rest) => if skipWs rest = [] then some v else none
  | none => none

/-! ## Suggestion generation (`generate_suggested_questions` in rag.py) -/

/-- Index of the first occurrence of a character. -/
def idxFirst (c : Char) : List Char → Option Nat
  | [] => none
  | x :: xs => if x == c then some 0 else (idxFirst c xs).map (· + 1)

/-- Index of the last occurrence of a character. -/
def idxLast (c : Char) (l : List Char) : Option Nat :=
  (idxFirst c l.reverse).map (fun i => l.length - 1 - i)

/-- `re.search(r'\[.*\]', text, re.DOTALL)`: the match starts at the first
`[` and, `.*` being greedy, extends to the last `]`; no match when no `]`
follows a `[`. -/
def extractBracket (s : String) : Option String :=
  match idxFirst '[' s.data, idxLast ']' s.data with
  | some i, some j => if i < j then some ⟨(s.data.drop i).take (j - i + 1)⟩ else none
  | _, _ => none

/-- `re.sub(r'^\d+[\.\)]\s*', '', s)`: strip one leading "1." / "1)" style
numbering with trailing whitespace. -/
def stripNumbering (s : String) : String :=
  match takeDigits s.data with
  | ([], _) => s
  | (_ :: _, rest) =>
    match rest with
    | c :: r => if c = '.' || c = ')' then ⟨r.dropWhile pyIsSpace⟩ else s
    | [] => s

/-- The character class of `re.sub(r'^[-â€¢]\s*', '', s)` — the source file
holds these literal characters (a mojibake of the bullet `•`). -/
def bulletChars : List Char := ['-', 'â', '€', '¢']

/-- Strip one leading bullet marker with trailing whitespace. -/
def stripBullet (s : String) : String :=
  match s.data with
  | c :: r => if bulletChars.contains c then ⟨r.dropWhile pyIsSpace⟩ else s
  | [] => s

/-- The per-candidate cleaning loop: keep strings only, strip, remove
numbering and bullets, keep results of at most 120 characters that are
non-empty. -/
def cleanCandidates (items : List Json) : List String :=
  items.filterMap fun j =>
    match j with
    | Json.str s0 =>
      let s := stripBullet (stripNumbering (pyStrip s0))
      if pyLen s ≤ 120 ∧ s ≠ "" then some s else none
    | _ => none

/-- Case-insensitive deduplication preserving first-seen order (`seen` set of
lowercased strings). -/
def dedupCIAux (seen : List String) : List String → List String
  | [] => []
  | s :: r =>
    let s_lower := pyLower s
    if seen.contains s_lower then dedupCIAux seen r
    else s :: dedupCIAux (s_lower :: seen) r

def dedupCI (l : List String) : List String := dedupCIAux [] l

def fallback_suggestions : List String :=
  ["Can you tell me about your background?", "What kind of experience do you have?"]

/-- Python `a or b` on an optional string (`None` and `""` are falsy). -/
def pyOrStr (a : Option String) (b : String) : String :=
  match a with
  | none => b
  | some s => if s = "" then b else s

/-- The prompt sent to the model by `generate_suggested_questions`. -/
def suggestion_prompt (context_string : String) : String :=
  "Based on the following resume context, generate EXACTLY 2 simple HR screening questions that a recruiter might ask a candidate.\n\nRESUME CONTEXT:\n"
    ++ context_string
    ++ "\n\nREQUIREMENTS:\n1. Questions should sound like typical HR interview questions (experience, background, skills overview)\n2. Keep questions conversational and non-technical\n3. Each question should be 5-10 words long\n4. NO personal sensitive information (phone, address, age, etc.)\n5. Questions should be broad and open-ended\n6. NO numbering or bullet points in the output\n7. Examples: \"Tell me about yourself\", \"What\x27s your background?\", \"Walk me through your experience\"\n\nOUTPUT FORMAT:\nReturn ONLY a valid JSON array of strings with exactly 2 questions. Example:\n[\"Can you tell me about your background?\", \"What kind of experience do you have?\"]\n\nGenerate the 2 questions now:"

/-- Oracle outcomes of the remote dependencies during one suggestions
request: the `get_rag_pipeline` error (if any), `_retrieve_context` as a
function of the retrieval query, and `llm.invoke` as a function of the
prompt; `Except.error` models a raised exception (caught by the surrounding
`try`). -/
structure SuggestEnv where
  pipelineErr : Option String
  retrieval : String → Except String (List Chunk)
  llm : String → Except String String

/-- `generate_suggested_questions` from `src/rag-backend/app/services/rag.py`:
query-priority selection, retrieval, one generation call, bracket extraction,
`json.loads`, cleaning, deduplication, and the pad/fallback repair policy.
Every failure path (pipeline error, raised exception, missing or unparseable
array, non-list value) terminates in `fallback_suggestions`. -/
def generate_suggested_questions (env : SuggestEnv)
    (last_user_message conversation_summary : Option String) : List String :=
  match env.pipelineErr with
  | some _ => fallback_suggestions
  | none =>
    match env.retrieval (pyOrStr last_user_message (pyOrStr conversation_summary "portfolio overview")) with
    | Except.error _ => fallback_suggestions
    | Except.ok chunks =>
      match env.llm (suggestion_prompt (build_context_string chunks)) with
      | Except.error _ => fallback_suggestions
      | Except.ok responseContent =>
        match extractBracket (pyStrip responseContent) with
        | none => fallback_suggestions
        | some json_str =>
          match jsonLoads json_str with
          | none => fallback_suggestions
          | some j =>
            match j with
            | Json.arr items =>
              let deduplicated := dedupCI (cleanCandidates items)
              if 2 ≤ deduplicated.length then deduplicated.take 2
              else deduplicated ++ fallback_suggestions.take (2 - deduplicated.length)
            | _ => fallback_suggestions

/-- The candidate list the suggestion flow derives before the repair step:
`some` of the cleaned, deduplicated strings when a bracketed substring of the
model output parses as a JSON list, `none` on every other path. -/
def suggestionParseOutcome (env : SuggestEnv)
    (last_user_message conversation_summary : Option String) : Option (List String) :=
  match env.pipelineErr with
  | some _ => none
  | none =>
    match env.retrieval (pyOrStr last_user_message (pyOrStr conversation_summary "portfolio overview")) with
    | Except.error _ => none
    | Except.ok chunks =>
      match env.llm (suggestion_prompt (build_context_string chunks)) with
      | Except.error _ => none
      | Except.ok responseContent =>
        match extractBracket (pyStrip responseContent) with
        | none => none
        | some json_str =>
          match jsonLoads json_str with
          | none => none
          | some j =>
            match j with
            | Json.arr items => some (dedupCI (cleanCandidates items))
            | _ => none

/-- The repair policy stated by the spec: on parse failure the fallback list
unmodified; otherwise the first 2 candidates, padded from the fallback list
when fewer than 2 remain. -/
def repairPolicy : Option (List String) → List String
  | none => fallback_suggestions
  | some d =>
    if 2 ≤ d.length then d.take 2
    else d ++ fallback_suggestions.take (2 - d.length)

/-- A rag-chat environment in which every remote dependency succeeds. -/
def envOkChat : RagChatEnv :=
  ⟨none, Except.ok (), Except.ok [], Except.ok "Some generated answer."⟩

/-- A rag-chat environment in which the LLM call raises a timeout. -/
def envLlmTimeout : RagChatEnv :=
  ⟨none, Except.ok (), Except.ok [], Except.error "timeout"⟩

/-- A simple-backend environment with the key set and a failing LLM call. -/
def envTimeoutB : BackendEnv := ⟨true, Except.error "timeout", "SYSTEM"⟩

/-- Two chunks used to instantiate the context-assembly theorem. -/
def witnessChunks : List Chunk := [⟨"Experience at Accenture."⟩, ⟨"Education details."⟩]

/-- Suggestion environment with a healthy pipeline and a model reply that is
a well-formed array of two case-insensitively equal strings. -/
def suggestEnvDup : SuggestEnv :=
  ⟨none, fun _ => Except.ok [], fun _ => Except.ok "[\"Hi there\", \"hi there\"]"⟩

/-- Suggestion environment whose model reply is a well-formed array of two
distinct valid questions wrapped in prose. -/
def suggestEnvPair : SuggestEnv :=
  ⟨none, fun _ => Except.ok [],
    fun _ => Except.ok "Sure! [\"What is your role?\", \"Where do you work?\"] Hope that helps."⟩

/-! ## Helper lemmas -/

theorem strData_append (a b : String) : (a ++ b).data = a.data ++ b.data := rfl

theorem listLeads_self (l suffix : List Char) : listLeads l (l ++ suffix) = true := by
  induction l with
  | nil => rfl
  | cons c cs ih => simp [listLeads, ih]

theorem subAt_of_leading (needle rest : List Char) : subAt needle (needle ++ rest) = true := by
  cases needle with
  | nil =>
    cases rest with
    | nil => rfl
    | cons c cs => simp [subAt, listLeads]
  | cons c cs =>
    have h : listLeads (c :: cs) (c :: (cs ++ rest)) = true := by
      simpa using listLeads_self (c :: cs) rest
    simp [subAt, h]

theorem subAt_cons_of (needle : List Char) (c : Char) (hay : List Char)
    (h : subAt needle hay = true) : subAt needle (c :: hay) = true := by
  simp [subAt, h]

theorem subAt_append_of (needle pre hay : List Char) (h : subAt needle hay = true) :
    subAt needle (pre ++ hay) = true := by
  induction pre with
  | nil => exact h
  | cons c cs ih => exact subAt_cons_of needle c (cs ++ hay) ih

theorem joinSep_mem_contains (sep : String) (l : List String) (x : String) (hx : x ∈ l) :
    subAt x.data (joinSep sep l).data = true := by
  induction l with
  | nil => cases hx
  | cons y r ih =>
    cases r with
    | nil =>
      rcases List.mem_singleton.mp hx with rfl
      have := subAt_of_leading x.data []
      simpa [joinSep] using this
    | cons y2 r2 =>
      rcases List.mem_cons.mp hx with rfl | hmem
      · show subAt x.data (x ++ sep ++ joinSep sep (y2 :: r2)).data = true
        rw [strData_append, strData_append, List.append_assoc]
        exact subAt_of_leading x.data _
      · show subAt x.data (y ++ sep ++ joinSep sep (y2 :: r2)).data = true
        rw [strData_append]
        exact subAt_append_of x.data _ _ (ih hmem)

/-! ## Claim theorems -/

/-- C1: contrary to the claim, the rag-backend session memory is unbounded:
after 11 exchanges (22 `add_message` calls) on one session,
`get_history_for_llm` returns all 22 messages — more than the claimed cap of
20 and more than the intended LangChain window of `2 * k = 10` messages
(`sessionMemoryK = 5`), because `get_history` reads the raw unwindowed
`chat_memory.messages`.  The simple backend variant does enforce the cap: the
same 11 exchanges leave exactly 20 messages. -/
theorem C1_rag_memory_unbounded :
    (get_history_for_llm (ragAddExchanges 11 emptyStore) "s").length = 22
    ∧ MAX_HISTORY_PER_SESSION < (get_history_for_llm (ragAddExchanges 11 emptyStore) "s").length
    ∧ sessionMemoryK = 5
    ∧ 2 * sessionMemoryK < (get_history_for_llm (ragAddExchanges 11 emptyStore) "s").length
    ∧ (backendHistoryIter 11 []).length = MAX_HISTORY_PER_SESSION := by
  refine ⟨by decide, by decide, by decide, by decide, by decide⟩

/-- C2: contrary to the claim (and to the repository's own
`test_chat.py::test_off_topic`), the rag-backend guardrail accepts
"What's the capital of France?" — the keyword `"what"` matches — so the chat
flow proceeds to make one embedding, one vector query, and one generation
call and does not return the fixed redirect.  A message the guardrail does
reject ("Sing me a song.") yields the fixed redirect with zero remote calls,
confirming the rejection path itself behaves as specified. -/
theorem C2_guardrail_accepts_france :
    is_about_yazhini_rag "What\x27s the capital of France?" = true
    ∧ is_about_yazhini_rag "What is the capital of France?" = true
    ∧ strContains (pyLower "What\x27s the capital of France?") "what" = true
    ∧ (rag_chat envOkChat emptyStore "s" "What\x27s the capital of France?").2.2 = ⟨1, 1, 1⟩
    ∧ (rag_chat envOkChat emptyStore "s" "What\x27s the capital of France?").1
        ≠ ChatOutcome.reply get_off_topic_response
    ∧ (rag_chat envOkChat emptyStore "s" "Sing me a song.").1
        = ChatOutcome.reply get_off_topic_response
    ∧ (rag_chat envOkChat emptyStore "s" "Sing me a song.").2.2 = ⟨0, 0, 0⟩ := by
  refine ⟨by decide, by decide, by decide, by decide, by decide, by decide, by decide⟩

/-- C3 counterexample: in the rag-backend chat flow a language-model timeout
on an on-topic message is NOT converted into the fixed apology reply; the
exception propagates and the handler returns an HTTP 500 "Chat Error"
request-level failure. -/
theorem C3_counterexample_rag_propagates :
    is_about_yazhini_rag "What are your projects?" = true
    ∧ (rag_chat envLlmTimeout emptyStore "s" "What are your projects?").1
        = ChatOutcome.httpError 500 "Chat Error" "Failed to generate response: timeout"
    ∧ (rag_chat envLlmTimeout emptyStore "s" "What are your projects?").1
        ≠ ChatOutcome.reply apology_reply := by
  refine ⟨by decide, by decide, by decide⟩

/-- C3 (amended): in the simple backend variant the apology fallback holds —
whenever the key is set, the guardrail accepts the message, and the LLM call
fails for any reason, `chat` returns the fixed apology string as a normal
reply and records the exchange in session history exactly as it would a
successful reply. -/
theorem C3_amended_backend_apology (env : BackendEnv) (store : SessionStore)
    (sid msg e : String) (hk : env.openaiKeySet = true)
    (hg : is_about_yazhini_backend msg = true) (hl : env.llmResult = Except.error e) :
    (backend_chat env store sid msg).1 = apology_reply
    ∧ (backend_chat env store sid msg).2 sid
        = backend_truncate (store sid ++ [⟨"user", msg⟩, ⟨"assistant", apology_reply⟩]) := by
  constructor
  · simp [backend_chat, hk, hg, generate_reply, hl]
  · simp [backend_chat, hk, hg, generate_reply, hl, updateStore]

/-- C3 witness: the amended theorem applied to a concrete timeout
environment and the on-topic message "What are your projects?". -/
theorem C3_amended_witness :
    (backend_chat envTimeoutB emptyStore "s" "What are your projects?").1 = apology_reply :=
  (C3_amended_backend_apology envTimeoutB emptyStore "s" "What are your projects?" "timeout"
    rfl (by decide) rfl).1

/-- C10: when the rag-backend guardrail rejects a message, the chat handler
still appends both the rejected user message and the fixed redirect reply to
that session's memory — the rejection branch mutates session history rather
than leaving it unchanged (and returns the redirect as the reply). -/
theorem C10_rejection_updates_memory (env : RagChatEnv) (store : SessionStore)
    (sid msg : String) (h : is_about_yazhini_rag msg = false) :
    (rag_chat env store sid msg).1 = ChatOutcome.reply get_off_topic_response
    ∧ (rag_chat env store sid msg).2.1 sid
        = store sid ++ [⟨"user", msg⟩, ⟨"assistant", get_off_topic_response⟩]
    ∧ (rag_chat env store sid msg).2.1 sid ≠ store sid := by
  have h2 : (rag_chat env store sid msg).2.1 sid
      = store sid ++ [⟨"user", msg⟩, ⟨"assistant", get_off_topic_response⟩] := by
    simp [rag_chat, h, add_message]
  refine ⟨by simp [rag_chat, h], h2, ?_⟩
  rw [h2]
  intro heq
  have hlen := congrArg List.length heq
  simp [List.length_append] at hlen

/-- C10 witness: a concrete rejected message on an empty session leaves the
session holding exactly the rejected message and the redirect. -/
theorem C10_witness :
    (rag_chat envOkChat emptyStore "s" "Sing me a song.").2.1 "s"
      = emptyStore "s"
        ++ [⟨"user", "Sing me a song."⟩, ⟨"assistant", get_off_topic_response⟩] :=
  (C10_rejection_updates_memory envOkChat emptyStore "s" "Sing me a song." (by decide)).2.1

/-- C6 counterexample: "What about the weather?" contains the
irrelevant-topic substring "weather", yet the rag-backend `is_about_yazhini`
— which has no irrelevant-topic list — returns true (keyword "what"
matches), so the precedence property does not hold for that cited guardrail
variant. -/
theorem C6_counterexample_rag_no_precedence :
    "weather" ∈ IRRELEVANT_TOPICS
    ∧ strContains (pyLower "What about the weather?") "weather" = true
    ∧ is_about_yazhini_rag "What about the weather?" = true := by
  refine ⟨by decide, by decide, by decide⟩

/-- C6 (amended): for the simple backend guardrail the precedence property
holds — any message containing an irrelevant-topic substring is rejected,
even when relevant keywords are also present, because the irrelevant-topic
loop runs first. -/
theorem C6_amended_irrelevant_wins (msg t : String) (ht : t ∈ IRRELEVANT_TOPICS)
    (hc : strContains (pyLower msg) t = true) :
    is_about_yazhini_backend msg = false := by
  have hany : IRRELEVANT_TOPICS.any (fun x => strContains (pyLower msg) x) = true :=
    List.any_eq_true.mpr ⟨t, ht, hc⟩
  simp [is_about_yazhini_backend, hany]

/-- C6 witness: "tell me a joke" contains the relevant keyword "tell me" and
the irrelevant topic "joke"; the simple backend guardrail rejects it. -/
theorem C6_amended_witness : is_about_yazhini_backend "tell me a joke" = false :=
  C6_amended_irrelevant_wins "tell me a joke" "joke" (by decide) (by decide)

/-- C7 counterexample: "thanks" is a 1-word message containing a greeting
term, yet the rag-backend `is_about_yazhini` — which has no greeting
exception — rejects it, so the claim does not hold for that cited guardrail
variant. -/
theorem C7_counterexample_rag_rejects_thanks :
    (pySplit "thanks").length ≤ 3
    ∧ GREETING_TERMS.any (fun g => strContains (pyLower "thanks") g) = true
    ∧ is_about_yazhini_rag "thanks" = false := by
  refine ⟨by decide, by decide, by decide⟩

/-- C7 (amended): the greeting exception holds in the simple backend variant
— a message of at most 3 words containing a greeting term and no
irrelevant-topic substring is accepted; the empty message is rejected by
both variants; and the rag-backend rejects any message whose stripped length
is below its 3-character threshold. -/
theorem C7_amended_greeting_exception (msg msg2 : String)
    (h1 : IRRELEVANT_TOPICS.any (fun t => strContains (pyLower msg) t) = false)
    (h2 : (pySplit msg).length ≤ 3)
    (h3 : GREETING_TERMS.any (fun g => strContains (pyLower msg) g) = true)
    (h4 : pyLen (pyStrip msg2) < 3) :
    is_about_yazhini_backend msg = true
    ∧ is_about_yazhini_backend "" = false
    ∧ is_about_yazhini_rag "" = false
    ∧ is_about_yazhini_rag msg2 = false := by
  refine ⟨?_, by decide, by decide, ?_⟩
  · cases hkw : RELEVANT_KEYWORDS.any (fun k => strContains (pyLower msg) k) with
    | true => simp [is_about_yazhini_backend, h1, hkw]
    | false => simp [is_about_yazhini_backend, h1, hkw, h2, h3]
  · unfold is_about_yazhini_rag
    rw [if_pos (Or.inr h4)]

/-- C7 witness: "ok thanks" (2 words, greeting terms, no irrelevant topic)
is accepted by the simple backend; "hi" (stripped length 2) is rejected by
the rag-backend. -/
theorem C7_amended_witness :
    is_about_yazhini_backend "ok thanks" = true ∧ is_about_yazhini_rag "hi" = false :=
  ⟨(C7_amended_greeting_exception "ok thanks" "hi" (by decide) (by decide) (by decide)
      (by decide)).1,
   (C7_amended_greeting_exception "ok thanks" "hi" (by decide) (by decide) (by decide)
      (by decide)).2.2.2⟩

/-- The suggestion flow factors through the repair policy applied to the
parse outcome: every branch of `generate_suggested_questions` agrees with
`repairPolicy` of `suggestionParseOutcome`. -/
theorem gsq_eq_repair (env : SuggestEnv) (lum cs : Option String) :
    generate_suggested_questions env lum cs
      = repairPolicy (suggestionParseOutcome env lum cs) := by
  unfold generate_suggested_questions suggestionParseOutcome
  cases env.pipelineErr with
  | some e => rfl
  | none =>
    dsimp only
    cases env.retrieval (pyOrStr lum (pyOrStr cs "portfolio overview")) with
    | error e => rfl
    | ok chunks =>
      dsimp only
      cases env.llm (suggestion_prompt (build_context_string chunks)) with
      | error e => rfl
      | ok resp =>
        dsimp only
        cases extractBracket (pyStrip resp) with
        | none => rfl
        | some js =>
          dsimp only
          cases jsonLoads js with
          | none => rfl
          | some j =>
            dsimp only
            cases j <;> rfl

/-- The repair policy always yields exactly two entries. -/
theorem repairPolicy_length (o : Option (List String)) : (repairPolicy o).length = 2 := by
  cases o with
  | none => rfl
  | some d =>
    unfold repairPolicy
    dsimp only
    have hf : fallback_suggestions.length = 2 := rfl
    split
    · next h => simp only [List.length_take]; omega
    · next h => simp only [List.length_append, List.length_take]; omega

/-- C4: for every environment (pipeline error, retrieval or generation
failure, unparseable or non-list model output) and every input, the
suggestion operation never fails outward: it equals the repair policy
applied to the parse outcome — the fixed two-item fallback when no candidate
list was obtained, the deduplicated candidates padded from the fallback list
otherwise — and it always returns exactly 2 strings. -/
theorem C4_suggestions_never_fail (env : SuggestEnv) (lum cs : Option String) :
    generate_suggested_questions env lum cs
      = repairPolicy (suggestionParseOutcome env lum cs)
    ∧ (generate_suggested_questions env lum cs).length = 2 :=
  ⟨gsq_eq_repair env lum cs, by rw [gsq_eq_repair]; exact repairPolicy_length _⟩

/-- C5 counterexample: the model output `["Hi there", "hi there"]` parses to
a list of 2 valid strings, but the operation does not return "the first 2 of
them after case-insensitive deduplication" — deduplication leaves only one
entry, and the result is that entry padded with the first fallback
suggestion. -/
theorem C5_counterexample_dup_padding :
    cleanCandidates [Json.str "Hi there", Json.str "hi there"] = ["Hi there", "hi there"]
    ∧ suggestionParseOutcome suggestEnvDup none none = some ["Hi there"]
    ∧ generate_suggested_questions suggestEnvDup none none
        = ["Hi there", "Can you tell me about your background?"]
    ∧ generate_suggested_questions suggestEnvDup none none
        ≠ (dedupCI ["Hi there", "hi there"]).take 2 := by
  refine ⟨by decide, by decide, by decide, by decide⟩

/-- C5 (amended): whenever the extracted bracketed substring of the model
output parses to a list whose valid cleaned strings still number at least 2
after case-insensitive first-seen-order deduplication, the suggestion
operation returns exactly the first 2 of that deduplicated sequence. -/
theorem C5_amended_first_two (env : SuggestEnv) (lum cs : Option String)
    (d : List String) (h : suggestionParseOutcome env lum cs = some d)
    (h2 : 2 ≤ d.length) :
    generate_suggested_questions env lum cs = d.take 2 := by
  rw [gsq_eq_repair, h]
  unfold repairPolicy
  dsimp only
  rw [if_pos h2]

/-- C5 witness: a model reply wrapping a well-formed two-question array in
prose yields exactly those two questions. -/
theorem C5_amended_witness :
    generate_suggested_questions suggestEnvPair none none
      = ["What is your role?", "Where do you work?"] :=
  C5_amended_first_two suggestEnvPair none none ["What is your role?", "Where do you work?"]
    (by decide) (by decide)

/-- `Nat.digitChar` on a decimal digit never produces `'['`. -/
theorem digitChar_ne_bracket (m : Nat) (h : m < 10) : Nat.digitChar m ≠ '[' := by
  interval_cases m <;> decide

/-- `Nat.toDigitsCore` in base 10 produces no `'['` beyond what the
accumulator holds. -/
theorem toDigitsCore_ne_bracket :
    ∀ (f n : Nat) (acc : List Char), (∀ c ∈ acc, c ≠ '[') →
      ∀ c ∈ Nat.toDigitsCore 10 f n acc, c ≠ '[' := by
  intro f
  induction f with
  | zero =>
    intro n acc h c hc
    unfold Nat.toDigitsCore at hc
    exact h c hc
  | succ f ih =>
    intro n acc h c hc
    unfold Nat.toDigitsCore at hc
    dsimp only at hc
    split at hc
    · rcases List.mem_cons.mp hc with rfl | hm
      · exact digitChar_ne_bracket _ (Nat.mod_lt _ (by omega))
      · exact h _ hm
    · refine ih _ _ ?_ _ hc
      intro c2 hc2
      rcases List.mem_cons.mp hc2 with rfl | hm
      · exact digitChar_ne_bracket _ (Nat.mod_lt _ (by omega))
      · exact h _ hm

/-- The decimal rendering of a natural number contains no `'['`. -/
theorem repr_count_bracket (n : Nat) : (Nat.repr n).data.count '[' = 0 := by
  have hmemn : ∀ c ∈ (Nat.repr n).data, c ≠ '[' := by
    have hd : (Nat.repr n).data = Nat.toDigitsCore 10 (n + 1) n [] := rfl
    rw [hd]
    exact toDigitsCore_ne_bracket (n + 1) n [] (by intro c hc; cases hc)
  rw [List.count_eq_zero]
  intro hmem
  exact hmemn _ hmem rfl

/-- A context block contributes exactly one `'['` when the chunk text has
none. -/
theorem contextPart_count (i : Nat) (t : String) (h : t.data.count '[' = 0) :
    (contextPart i t).data.count '[' = 1 := by
  unfold contextPart
  rw [strData_append, strData_append, strData_append, strData_append]
  simp [List.count_append, repr_count_bracket, h]

/-- The spec-shaped context string has exactly one `'['` per chunk when the
chunk texts contain none. -/
theorem contextSpec_count (chunks : List Chunk) :
    ∀ i, (∀ c ∈ chunks, c.text.data.count '[' = 0) →
      (contextSpec i chunks).data.count '[' = chunks.length := by
  induction chunks with
  | nil => intro i _; rfl
  | cons c cs ih =>
    intro i h
    cases cs with
    | nil =>
      show (contextPart i c.text).data.count '[' = 1
      exact contextPart_count i c.text (h c (by simp))
    | cons c2 r =>
      show ((contextPart i c.text ++ "\n" ++ contextSpec (i + 1) (c2 :: r)).data.count '[')
        = (c :: c2 :: r).length
      rw [strData_append, strData_append, List.count_append, List.count_append]
      rw [contextPart_count i c.text (h c (by simp))]
      rw [ih (i + 1) (fun x hx => h x (by simp [hx]))]
      have h0 : List.count '[' ['\n'] = 0 := by decide
      simp only [List.length_cons]
      omega

/-- The joined enumerated blocks equal the spec-shaped recursion. -/
theorem joinSep_enum_eq_contextSpec (chunks : List Chunk) :
    ∀ i, chunks ≠ [] →
      joinSep "\n" ((enumFromN i chunks).map (fun p => contextPart p.1 p.2.text))
        = contextSpec i chunks := by
  induction chunks with
  | nil => intro i hne; exact absurd rfl hne
  | cons c cs ih =>
    intro i _
    cases cs with
    | nil => rfl
    | cons c2 r =>
      show contextPart i c.text ++ "\n"
          ++ joinSep "\n" ((enumFromN (i + 1) (c2 :: r)).map (fun p => contextPart p.1 p.2.text))
        = contextPart i c.text ++ "\n" ++ contextSpec (i + 1) (c2 :: r)
      rw [ih (i + 1) (by simp)]

/-- C8: `build_context_string` of the empty chunk list is the fixed non-empty
no-context sentinel; for a non-empty list it equals the spec-shaped string —
one numbered Context label per chunk in input order, each followed by that
chunk's text — and, when no chunk text contains `'['`, the result holds
exactly `k` bracketed labels (one `'['` per chunk). -/
theorem C8_build_context (chunks : List Chunk) (hne : chunks ≠ [])
    (hclean : ∀ c ∈ chunks, c.text.data.count '[' = 0) :
    build_context_string [] = "No relevant resume context found."
    ∧ build_context_string [] ≠ ""
    ∧ build_context_string chunks = contextSpec 1 chunks
    ∧ (build_context_string chunks).data.count '[' = chunks.length := by
  have heq : build_context_string chunks = contextSpec 1 chunks := by
    unfold build_context_string
    rw [if_neg (by simp [hne])]
    exact joinSep_enum_eq_contextSpec chunks 1 hne
  refine ⟨rfl, by decide, heq, ?_⟩
  rw [heq]
  exact contextSpec_count chunks 1 hclean

/-- C8 witness: two concrete chunks produce the spec-shaped string with
exactly two Context labels. -/
theorem C8_witness :
    build_context_string witnessChunks = contextSpec 1 witnessChunks
    ∧ (build_context_string witnessChunks).data.count '[' = witnessChunks.length :=
  ⟨(C8_build_context witnessChunks (by decide) (by decide)).2.2.1,
   (C8_build_context witnessChunks (by decide) (by decide)).2.2.2⟩

/-- C9 counterexample: with all three credentials absent, `RAGConfig.validate`
(one of the two validation checks the claim covers) reports only the first
missing variable — its message names neither `PINECONE_INDEX_NAME` nor
`OPENAI_API_KEY`, so the claim that the check names every missing variable is
false for this check. -/
theorem C9_counterexample_first_only :
    ragConfigValidate ⟨none, none, none⟩ = (false, some "PINECONE_API_KEY is required")
    ∧ pyFalsyOpt (RAGConfigEnv.mk none none none).openai_api_key = true
    ∧ pyFalsyOpt (RAGConfigEnv.mk none none none).pinecone_index_name = true
    ∧ strContains "PINECONE_API_KEY is required" "OPENAI_API_KEY" = false
    ∧ strContains "PINECONE_API_KEY is required" "PINECONE_INDEX_NAME" = false := by
  refine ⟨by decide, by decide, by decide, by decide, by decide⟩

/-- C9 (amended): `Config.validate_required` does satisfy the claim — it
detects missing credentials eagerly and its message names every missing
variable, succeeding exactly when none is missing — while
`RAGConfig.validate` reports only the first missing credential in its fixed
check order (whenever the Pinecone API key is falsy, the message is only
"PINECONE_API_KEY is required" regardless of the other fields). -/
theorem C9_amended_validation (c : ConfigEnv) (name : String) (c2 : RAGConfigEnv)
    (hmem : name ∈ missingVars c) (hfalsy : pyFalsyOpt c2.pinecone_api_key = true) :
    (∃ m, (validate_required c).2 = some m ∧ strContains m name = true)
    ∧ ((validate_required c).1 = true ↔ missingVars c = [])
    ∧ ragConfigValidate c2 = (false, some "PINECONE_API_KEY is required") := by
  refine ⟨?_, ?_, ?_⟩
  · have hne : missingVars c ≠ [] := by
      intro h0
      rw [h0] at hmem
      cases hmem
    refine ⟨"Missing required environment variables: " ++ joinSep ", " (missingVars c), ?_, ?_⟩
    · unfold validate_required
      rw [if_neg hne]
    · unfold strContains
      rw [strData_append]
      exact subAt_append_of _ _ _ (joinSep_mem_contains ", " (missingVars c) name hmem)
  · unfold validate_required
    split
    · next h => simp [h]
    · next h => simp [h]
  · unfold ragConfigValidate
    rw [if_pos hfalsy]

/-- C9 witness: with the Pinecone API key and the OpenAI key absent,
`validate_required` fails and its message names `OPENAI_API_KEY`. -/
theorem C9_amended_witness :
    ∃ m, (validate_required ⟨"", "resume-index", ""⟩).2 = some m
      ∧ strContains m "OPENAI_API_KEY" = true :=
  (C9_amended_validation ⟨"", "resume-index", ""⟩ "OPENAI_API_KEY" ⟨none, none, none⟩
    (by decide) (by decide)).1
